import Mathlib

/-!
Verification of the rate-limiting / quota-enforcement and idempotent-webhook
core of the stock trading signal service (FastAPI backend).

The embedding translates the relevant Python source into Lean:
* `MockRedis` embeds `app/utils/redis_client.py` (the in-memory key-value
  store with TTL expiry; wall-clock time is passed explicitly as a rational).
* `check_rate_limit` embeds `app/routers/auth.py`.
* `generate_mock_signals`, `cacheGetOrCompute` and `get_signals` embed
  `app/routers/signals.py` (randomness is passed explicitly as a stream of
  draws, the current day as a string).
* `stripe_webhook`, `create_checkout_session` embed `app/routers/billing.py`
  (signature verification is an external collaborator, so its outcome is an
  input; the SQL user table is a list of `User` rows; the handler also emits
  a trace of store/ledger operations so ordering properties can be stated).
-/

namespace StockSignals

/-- A trading signal row, as built by `generate_mock_signals` in
`app/routers/signals.py` (price and confidence are modelled as rationals;
the Python floats only ever hold 2-decimal values in the ranges used). -/
structure Sig where
  symbol : String
  type : String
  price : Rat
  confidence : Rat
  timestamp : String
deriving DecidableEq, Repr

/-- A value stored in the key-value store.  Python stores heterogeneous
values: strings (`"1"` markers), ints (counters written as `1` and
incremented), and JSON-serialized signal batches.  `json b` stands for the
string `json.dumps(b)`; two such strings are byte-identical iff the batches
are equal. -/
inductive RVal where
  | str (s : String)
  | num (n : Int)
  | json (sigs : List Sig)
deriving DecidableEq, Repr

/-- `int(v)` as used on stored counter values. -/
def RVal.toInt : RVal → Int
  | .str s => (s.toInt?).getD 0
  | .num n => n
  | .json _ => 0

/-- Python truthiness of a stored value (`if count and ...`,
`if cached_signals:`): empty string is falsy, 0 is falsy, a JSON dump of a
list is never the empty string. -/
def RVal.truthy : RVal → Bool
  | .str s => s != ""
  | .num n => n != 0
  | .json _ => true

/-- Truthiness of an optional lookup result (`None` is falsy). -/
def optTruthy : Option RVal → Bool
  | none => false
  | some v => v.truthy

/-- `int(count)` on an optional lookup result (only ever evaluated by the
source on truthy values). -/
def optToInt : Option RVal → Int
  | none => 0
  | some v => v.toInt

/-- `d.get(key)` / `d[key]` on an association-list map. -/
def lookupKV (key : String) : List (String × α) → Option α
  | [] => none
  | p :: t => if p.1 = key then some p.2 else lookupKV key t

/-- `del d[key]` on an association-list map. -/
def eraseKey (key : String) : List (String × α) → List (String × α)
  | [] => []
  | p :: t => if p.1 = key then eraseKey key t else p :: eraseKey key t

/-- `d[key] = v` on an association-list map. -/
def insertKV (key : String) (v : α) (l : List (String × α)) : List (String × α) :=
  (key, v) :: eraseKey key l

/-- The in-memory `MockRedis` state from `app/utils/redis_client.py`:
`self.data` and `self.expiry` (absolute expiry instants). -/
structure MockRedis where
  data : List (String × RVal)
  expiry : List (String × Rat)
deriving DecidableEq, Repr

/-- `MockRedis.get`: if the key has an expiry in the past, delete it and
return `None`; otherwise return `self.data.get(key)`.  The current wall
clock `now` is explicit; the (possibly mutated) store is returned. -/
def MockRedis.get (r : MockRedis) (now : Rat) (key : String) :
    MockRedis × Option RVal :=
  match lookupKV key r.expiry with
  | some t =>
      if now > t then
        (⟨eraseKey key r.data, eraseKey key r.expiry⟩, none)
      else
        (r, lookupKV key r.data)
  | none => (r, lookupKV key r.data)

/-- `MockRedis.set`. -/
def MockRedis.set (r : MockRedis) (key : String) (value : RVal) : MockRedis :=
  ⟨insertKV key value r.data, r.expiry⟩

/-- `MockRedis.setex`: store the value and an absolute expiry `now + ex`. -/
def MockRedis.setex (r : MockRedis) (now : Rat) (key : String) (ex : Rat)
    (value : RVal) : MockRedis :=
  ⟨insertKV key value r.data, insertKV key (now + ex) r.expiry⟩

/-- `MockRedis.incr`: drop the key first if expired, then create-at-1 or
increment `int(self.data[key]) + 1`; returns the new counter value. -/
def MockRedis.incr (r : MockRedis) (now : Rat) (key : String) :
    MockRedis × Int :=
  let r1 : MockRedis :=
    match lookupKV key r.expiry with
    | some t =>
        if now > t then ⟨eraseKey key r.data, eraseKey key r.expiry⟩ else r
    | none => r
  match lookupKV key r1.data with
  | none => (⟨insertKV key (RVal.num 1) r1.data, r1.expiry⟩, 1)
  | some v => (⟨insertKV key (RVal.num (v.toInt + 1)) r1.data, r1.expiry⟩, v.toInt + 1)

/-- `MockRedis.expire`: set an expiry only when the key holds data. -/
def MockRedis.expire (r : MockRedis) (now : Rat) (key : String) (ex : Rat) :
    MockRedis :=
  match lookupKV key r.data with
  | some _ => ⟨r.data, insertKV key (now + ex) r.expiry⟩
  | none => r

/-- `MockRedis.delete`. -/
def MockRedis.delete (r : MockRedis) (key : String) : MockRedis :=
  ⟨eraseKey key r.data, eraseKey key r.expiry⟩

/-- A row of the `users` table (`app/models/user.py`). -/
structure User where
  id : Nat
  email : String
  is_paid : Bool
  stripe_customer_id : Option String
deriving DecidableEq, Repr

/-- Python falsiness of a nullable customer-reference column
(`if not current_user.stripe_customer_id`): `None` and `""` are falsy. -/
def custFalsy : Option String → Bool
  | none => true
  | some s => s == ""

/-- `check_rate_limit` from `app/routers/auth.py`: read the counter; absent
→ `setex(key, window, 1)` and allow; `< limit` → `incr` and allow;
otherwise deny without touching the store. -/
def check_rate_limit (redis : MockRedis) (now : Rat) (key : String)
    (limit : Int) (window : Rat) : MockRedis × Bool :=
  let g := redis.get now key
  match g.2 with
  | none => (g.1.setex now key window (RVal.num 1), true)
  | some current =>
      if current.toInt < limit then ((g.1.incr now key).1, true)
      else (g.1, false)

/-- The two instrument symbols of `generate_mock_signals`. -/
def symbols : List String := ["NIFTY", "BANKNIFTY"]

/-- The signal kinds drawn from by `generate_mock_signals`. -/
def signal_types : List String := ["BUY", "SELL", "HOLD"]

/-- A stream of pseudo-random draws standing for Python's `random` module:
`choice n` is the index drawn by the `n`-th `random.choice(signal_types)`
call, `unif n a b` the value returned by the `n`-th `random.uniform(a, b)`
call (a faithful stream satisfies `a ≤ unif n a b ≤ b`). -/
structure Rng where
  choice : Nat → Fin 3
  unif : Nat → Rat → Rat → Rat

/-- Python `round(x, 2)` on the rationals produced here: round
`x * 100` to the nearest integer and divide back. -/
def round2 (q : Rat) : Rat := (⌊q * 100 + 1 / 2⌋ : Rat) / 100

/-- One signal record of `generate_mock_signals`: signal number `j`
(0-based across the whole double loop) for the given symbol; the `n`-th
uniform draw overall is `unif n`, and signal `j` consumes choice draw `j`
and uniform draws `2*j` (price) and `2*j+1` (confidence). -/
def mkSignal (rng : Rng) (nowIso : String) (symbol : String) (j : Nat) : Sig :=
  { symbol := symbol
    type := signal_types.get ⟨(rng.choice j).val, by cases rng.choice j with
      | mk v hv => simpa [signal_types] using hv⟩
    price :=
      if symbol == "NIFTY" then round2 (21500 + rng.unif (2 * j) (-500) 500)
      else round2 (45000 + rng.unif (2 * j) (-1000) 1000)
    confidence := round2 (rng.unif (2 * j + 1) 0.6 0.95)
    timestamp := nowIso }

/-- `generate_mock_signals` from `app/routers/signals.py`: 5 signals per
symbol, for the two symbols, in loop order. -/
def generate_mock_signals (rng : Rng) (nowIso : String) : List Sig :=
  symbols.enum.flatMap (fun p =>
    (List.range 5).map (fun i => mkSignal rng nowIso p.2 (p.1 * 5 + i)))

/-- The per-user per-day quota counter key `signal_limit:{id}:{today}`. -/
def rateKey (user : User) (today : String) : String :=
  "signal_limit:" ++ toString user.id ++ ":" ++ today

/-- The shared per-day cache key `signals:all:{today}`. -/
def cacheKey (today : String) : String := "signals:all:" ++ today

/-- The cache section of `get_signals` (lines 59–69 of
`app/routers/signals.py`): read `signals:all:{today}`; on a truthy hit,
`json.loads` the cached payload; on a miss, generate (the fresh batch is
the explicit `fresh` argument) and `setex` its `json.dumps` for 300 s. -/
def cacheGetOrCompute (redis : MockRedis) (now : Rat) (today : String)
    (fresh : List Sig) : MockRedis × List Sig :=
  let cache_key := cacheKey today
  let g := redis.get now cache_key
  match g.2 with
  | some v =>
      if v.truthy then
        (g.1, match v with | .json b => b | _ => [])
      else
        (g.1.setex now cache_key 300 (RVal.json fresh), fresh)
  | none => (g.1.setex now cache_key 300 (RVal.json fresh), fresh)

/-- The quota error raised by `get_signals` (HTTP 403). -/
inductive SignalsError where
  | quotaExceeded (detail : String)
deriving DecidableEq, Repr

/-- The successful response body of `get_signals`. -/
structure SignalsOk where
  signals : List Sig
  user_limit : Option String
  is_paid : Bool
deriving DecidableEq, Repr

/-- `get_signals` from `app/routers/signals.py`: for free users, read the
`signal_limit:{id}:{today}` counter, deny with 403 when truthy and `≥ 3`,
otherwise initialize it to 1 with a 24 h TTL or increment it; then serve
from the day cache, truncating free users to the first 3 entries. -/
def get_signals (user : User) (today : String) (now : Rat) (fresh : List Sig)
    (redis : MockRedis) : MockRedis × Except SignalsError SignalsOk :=
  if user.is_paid then
    let c := cacheGetOrCompute redis now today fresh
    (c.1, .ok ⟨c.2, none, true⟩)
  else
    let rate_key := rateKey user today
    let g := redis.get now rate_key
    if optTruthy g.2 ∧ 3 ≤ optToInt g.2 then
      (g.1, .error (.quotaExceeded
        "Daily limit exceeded. Upgrade to paid plan for unlimited signals."))
    else
      let r2 := match g.2 with
        | none => g.1.setex now rate_key 86400 (RVal.num 1)
        | some _ => (g.1.incr now rate_key).1
      let c := cacheGetOrCompute r2 now today fresh
      (c.1, .ok ⟨c.2.take 3, some "3/day (upgrade for unlimited)", false⟩)

/-- A verified Stripe event as consumed by `stripe_webhook`: its id, its
type, and `event["data"]["object"].get("customer")` (all three handled
event kinds extract exactly this field). -/
structure Event where
  id : String
  type : String
  customer : Option String
deriving DecidableEq, Repr

/-- The two verification failures of `stripe.Webhook.construct_event`. -/
inductive VerifyErr where
  | invalidPayload
  | invalidSignature
deriving DecidableEq, Repr

/-- The HTTP 400 detail string raised for each verification failure. -/
def VerifyErr.detail : VerifyErr → String
  | .invalidPayload => "Invalid payload"
  | .invalidSignature => "Invalid signature"

/-- The terminal outcome of the webhook handler: HTTP 400 rejection,
`{"status": "already_processed"}`, or `{"status": "success", ...}`. -/
inductive WebhookResult where
  | rejected (detail : String)
  | alreadyProcessed
  | success (event_type : String)
deriving DecidableEq, Repr

/-- An observable operation of the webhook handler, recorded in program
order: a store read, a store write with TTL, or a committed entitlement
mutation (`user.is_paid = b; db.commit()`). -/
inductive Op where
  | rGet (key : String)
  | rSetex (key : String) (ttl : Rat) (v : RVal)
  | dbSetPaid (uid : Nat) (b : Bool)
deriving DecidableEq, Repr

/-- `db.query(User).filter(User.stripe_customer_id == customer_id).first()`
followed by `user.is_paid = b; db.commit()` when a row matches: mutate the
first matching row, and record the committed mutation. -/
def applyPaidEvent : List User → Option String → Bool → List User × List Op
  | [], _, _ => ([], [])
  | u :: rest, c, b =>
      if u.stripe_customer_id == c then
        ({ u with is_paid := b } :: rest, [Op.dbSetPaid u.id b])
      else
        let p := applyPaidEvent rest c b
        (u :: p.1, p.2)

/-- The event-type dispatch of `stripe_webhook` (lines 104–137): the two
payment kinds set `is_paid = True`, cancellation sets `is_paid = False`,
any other kind is a no-op. -/
def dispatchEvent (db : List User) (event : Event) : List User × List Op :=
  if event.type == "checkout.session.completed" then
    applyPaidEvent db event.customer true
  else if event.type == "invoice.payment_succeeded" then
    applyPaidEvent db event.customer true
  else if event.type == "customer.subscription.deleted" then
    applyPaidEvent db event.customer false
  else (db, [])

/-- `stripe_webhook` from `app/routers/billing.py`: signature verification
is external, so its outcome is the `verify` input; on failure raise 400
before touching any state.  Otherwise read the idempotency marker
`stripe_event:{id}` (truthy → `already_processed`), else `setex` the
marker `"1"` for 86400 s and dispatch by event type.  The handler returns
the store, the user table, the HTTP outcome, and its operation trace. -/
def stripe_webhook (verify : Except VerifyErr Event) (now : Rat)
    (redis : MockRedis) (db : List User) :
    MockRedis × List User × WebhookResult × List Op :=
  match verify with
  | .error e => (redis, db, .rejected e.detail, [])
  | .ok event =>
      let redis_key := "stripe_event:" ++ event.id
      let g := redis.get now redis_key
      if optTruthy g.2 then
        (g.1, db, .alreadyProcessed, [Op.rGet redis_key])
      else
        let r2 := g.1.setex now redis_key 86400 (RVal.str "1")
        let d := dispatchEvent db event
        (r2, d.1, .success event.type,
          Op.rGet redis_key :: Op.rSetex redis_key 86400 (RVal.str "1") :: d.2)

/-- The customer-creation step of `create_checkout_session` (lines 23–32 of
`app/routers/billing.py`): for the authenticated user (the row with the
given id), if `stripe_customer_id` is falsy, store the id freshly created
by `stripe.Customer.create` (the external collaborator's return value is
the `newCustomerId` argument) and commit; otherwise leave the row alone. -/
def create_checkout_session : List User → Nat → String → List User
  | [], _, _ => []
  | u :: rest, uid, newCustomerId =>
      if u.id == uid then
        (if custFalsy u.stripe_customer_id then
          { u with stripe_customer_id := some newCustomerId } :: rest
        else u :: rest)
      else u :: create_checkout_session rest uid newCustomerId

/-- `n` back-to-back calls of `check_rate_limit` with fixed parameters
(the head of the result list is the first call's outcome). -/
def crlIter (now : Rat) (key : String) (limit : Int) (window : Rat) :
    Nat → MockRedis → MockRedis × List Bool
  | 0, r => (r, [])
  | n + 1, r =>
      let p := check_rate_limit r now key limit window
      let q := crlIter now key limit window n p.1
      (q.1, p.2 :: q.2)

/-- `n` back-to-back calls of `get_signals` for one user on one day; call
number `k + i` (0-based) would freshly generate `freshF (k + i)` on a cache
miss.  The head of the result list is the first call's outcome. -/
def gsIter (user : User) (today : String) (now : Rat)
    (freshF : Nat → List Sig) : Nat → Nat → MockRedis →
    MockRedis × List (Except SignalsError SignalsOk)
  | _, 0, r => (r, [])
  | k, n + 1, r =>
      let p := get_signals user today now (freshF k) r
      let q := gsIter user today now freshF (k + 1) n p.1
      (q.1, p.2 :: q.2)

section StoreLemmas

variable {α : Type} {key k : String} {v : α} {l : List (String × α)}

theorem lookup_eraseKey_self : lookupKV key (eraseKey key l) = none := by
  induction l with
  | nil => rfl
  | cons p t ih =>
      by_cases h : p.1 = key
      · simpa [eraseKey, h] using ih
      · simpa [eraseKey, lookupKV, h] using ih

theorem lookup_eraseKey_ne (h : k ≠ key) :
    lookupKV k (eraseKey key l) = lookupKV k l := by
  induction l with
  | nil => rfl
  | cons p t ih =>
      by_cases h1 : p.1 = key
      · simpa [eraseKey, lookupKV, h1, Ne.symm h] using ih
      · by_cases h2 : p.1 = k
        · simp [eraseKey, lookupKV, h1, h2, h]
        · simpa [eraseKey, lookupKV, h1, h2] using ih

theorem lookup_insertKV_self : lookupKV key (insertKV key v l) = some v := by
  simp [insertKV, lookupKV]

theorem lookup_insertKV_ne (h : k ≠ key) :
    lookupKV k (insertKV key v l) = lookupKV k l := by
  simp [insertKV, lookupKV, Ne.symm h, lookup_eraseKey_ne h]

end StoreLemmas

section RedisLemmas

variable {r : MockRedis} {now t ex : Rat} {key k : String} {v : RVal}

theorem MockRedis.get_no_expiry (h : lookupKV key r.expiry = none) :
    r.get now key = (r, lookupKV key r.data) := by
  simp [MockRedis.get, h]

theorem MockRedis.get_live (h : lookupKV key r.expiry = some t) (hle : now ≤ t) :
    r.get now key = (r, lookupKV key r.data) := by
  simp [MockRedis.get, h, not_lt.mpr hle]

theorem MockRedis.get_expired (h : lookupKV key r.expiry = some t) (hgt : now > t) :
    r.get now key = (⟨eraseKey key r.data, eraseKey key r.expiry⟩, none) := by
  simp [MockRedis.get, h, hgt]

theorem MockRedis.get_frame (h : k ≠ key) :
    lookupKV k ((r.get now key).1).data = lookupKV k r.data ∧
    lookupKV k ((r.get now key).1).expiry = lookupKV k r.expiry := by
  unfold MockRedis.get
  cases he : lookupKV key r.expiry with
  | none => exact ⟨rfl, rfl⟩
  | some t =>
      by_cases hgt : now > t
      · simp [hgt, lookup_eraseKey_ne h]
      · simp [hgt]

theorem MockRedis.setex_lookup_self :
    lookupKV key (r.setex now key ex v).data = some v ∧
    lookupKV key (r.setex now key ex v).expiry = some (now + ex) :=
  ⟨lookup_insertKV_self, lookup_insertKV_self⟩

theorem MockRedis.setex_frame (h : k ≠ key) :
    lookupKV k (r.setex now key ex v).data = lookupKV k r.data ∧
    lookupKV k (r.setex now key ex v).expiry = lookupKV k r.expiry :=
  ⟨lookup_insertKV_ne h, lookup_insertKV_ne h⟩

theorem MockRedis.incr_live (he : lookupKV key r.expiry = some t)
    (hle : now ≤ t) (hd : lookupKV key r.data = some v) :
    r.incr now key =
      (⟨insertKV key (RVal.num (v.toInt + 1)) r.data, r.expiry⟩, v.toInt + 1) := by
  simp [MockRedis.incr, he, not_lt.mpr hle, hd]

theorem MockRedis.incr_frame (h : k ≠ key) :
    lookupKV k ((r.incr now key).1).data = lookupKV k r.data ∧
    lookupKV k ((r.incr now key).1).expiry = lookupKV k r.expiry := by
  unfold MockRedis.incr
  cases he : lookupKV key r.expiry with
  | none =>
      cases hd : lookupKV key r.data with
      | none => simp [hd, lookup_insertKV_ne h]
      | some v => simp [hd, lookup_insertKV_ne h]
  | some t =>
      by_cases hgt : now > t
      · simp only [he, if_pos hgt]
        cases hd : lookupKV key (eraseKey key r.data) with
        | none =>
            simp [hd, lookup_insertKV_ne h, lookup_eraseKey_ne h]
        | some v =>
            simp [hd, lookup_insertKV_ne h, lookup_eraseKey_ne h]
      · simp only [he, if_neg hgt]
        cases hd : lookupKV key r.data with
        | none => simp [hd, lookup_insertKV_ne h]
        | some v => simp [hd, lookup_insertKV_ne h]

end RedisLemmas

section KeyLemmas

theorem getElem6_append (s x : String) (c : Char) (h : s.data[6]? = some c) :
    (s ++ x).data[6]? = some c := by
  have hlen : 6 < s.data.length := by
    by_contra hl
    push_neg at hl
    rw [List.getElem?_eq_none hl] at h
    exact Option.noConfusion h
  rw [String.data_append, List.getElem?_append_left hlen]
  exact h

theorem ne_of_getElem6 (s1 s2 : String) (c1 c2 : Char)
    (h1 : s1.data[6]? = some c1) (h2 : s2.data[6]? = some c2)
    (hc : c1 ≠ c2) : s1 ≠ s2 := by
  intro he
  rw [he, h2] at h1
  exact hc (Option.some.inj h1).symm

theorem rate_key_getElem6 (u d : String) :
    ("signal_limit:" ++ u ++ ":" ++ d).data[6]? = some '_' := by
  apply getElem6_append
  apply getElem6_append
  apply getElem6_append
  decide

theorem cache_key_getElem6 (d : String) :
    ("signals:all:" ++ d).data[6]? = some 's' := by
  apply getElem6_append
  decide

theorem rate_key_ne_cache_key (u d1 d2 : String) :
    ("signal_limit:" ++ u ++ ":" ++ d1) ≠ ("signals:all:" ++ d2) :=
  ne_of_getElem6 _ _ _ _ (rate_key_getElem6 u d1) (cache_key_getElem6 d2)
    (by decide)

theorem append_cancel_left_ne (p a b : String) (h : a ≠ b) :
    p ++ a ≠ p ++ b := by
  intro he
  have h2 := congrArg String.data he
  simp only [String.data_append] at h2
  exact h (String.ext (List.append_cancel_left h2))

theorem rate_key_day_ne (u d1 d2 : String) (h : d1 ≠ d2) :
    ("signal_limit:" ++ u ++ ":" ++ d1) ≠ ("signal_limit:" ++ u ++ ":" ++ d2) := by
  have h1 : "signal_limit:" ++ u ++ ":" ++ d1 =
      ("signal_limit:" ++ u ++ ":") ++ d1 := by
    simp [String.append_assoc]
  have h2 : "signal_limit:" ++ u ++ ":" ++ d2 =
      ("signal_limit:" ++ u ++ ":") ++ d2 := by
    simp [String.append_assoc]
  rw [h1, h2]
  exact append_cancel_left_ne _ _ _ h

theorem cache_key_day_ne (d1 d2 : String) (h : d1 ≠ d2) :
    ("signals:all:" ++ d1) ≠ ("signals:all:" ++ d2) :=
  append_cancel_left_ne _ _ _ h

end KeyLemmas

section RoundLemmas

/-- `round2` keeps a value inside any interval whose endpoints are exact
hundredths. -/
theorem round2_mem (q : Rat) (ka kb : Int)
    (h1 : (ka : Rat) / 100 ≤ q) (h2 : q ≤ (kb : Rat) / 100) :
    (ka : Rat) / 100 ≤ round2 q ∧ round2 q ≤ (kb : Rat) / 100 := by
  have hka : (ka : Rat) ≤ q * 100 := by
    have := mul_le_mul_of_nonneg_right h1 (by norm_num : (0:Rat) ≤ 100)
    calc (ka : Rat) = (ka : Rat) / 100 * 100 := by ring
    _ ≤ q * 100 := this
  have hkb : q * 100 ≤ (kb : Rat) := by
    have := mul_le_mul_of_nonneg_right h2 (by norm_num : (0:Rat) ≤ 100)
    calc q * 100 ≤ (kb : Rat) / 100 * 100 := this
    _ = (kb : Rat) := by ring
  have hlo : ka ≤ ⌊q * 100 + 1 / 2⌋ := by
    apply Int.le_floor.mpr
    linarith
  have hhi : ⌊q * 100 + 1 / 2⌋ ≤ kb := by
    have : ⌊q * 100 + 1 / 2⌋ < kb + 1 := by
      apply Int.floor_lt.mpr
      push_cast
      linarith
    omega
  constructor
  · unfold round2
    gcongr
  · unfold round2
    gcongr

end RoundLemmas

section WebhookLemmas

theorem applyPaidEvent_nomatch (db : List User) (c : Option String) (b : Bool)
    (h : ∀ u ∈ db, u.stripe_customer_id ≠ c) : applyPaidEvent db c b = (db, []) := by
  induction db with
  | nil => rfl
  | cons u t ih =>
      have hu := h u (List.mem_cons_self u t)
      simp only [applyPaidEvent, beq_eq_false_iff_ne.mpr hu, Bool.false_eq_true,
        if_false]
      rw [ih (fun w hw => h w (List.mem_cons_of_mem u hw))]

theorem applyPaidEvent_first (pre : List User) (u : User) (post : List User)
    (c : Option String) (b : Bool)
    (hpre : ∀ v ∈ pre, v.stripe_customer_id ≠ c) (hu : u.stripe_customer_id = c) :
    applyPaidEvent (pre ++ u :: post) c b =
      (pre ++ { u with is_paid := b } :: post, [Op.dbSetPaid u.id b]) := by
  induction pre with
  | nil => simp [applyPaidEvent, hu]
  | cons v t ih =>
      have hv := hpre v (List.mem_cons_self v t)
      have ih2 := ih (fun w hw => hpre w (List.mem_cons_of_mem v hw))
      simp only [List.cons_append, applyPaidEvent,
        beq_eq_false_iff_ne.mpr hv, Bool.false_eq_true, if_false,
        List.append_eq, ih2]

theorem applyPaidEvent_preserves_ref (db : List User) (c : Option String)
    (b : Bool) (i : Nat) (u : User) (h : db[i]? = some u) :
    ∃ u', ((applyPaidEvent db c b).1)[i]? = some u' ∧
      u'.id = u.id ∧ u'.email = u.email ∧
      u'.stripe_customer_id = u.stripe_customer_id := by
  induction db generalizing i with
  | nil => simp at h
  | cons v t ih =>
      by_cases hv : v.stripe_customer_id == c
      · simp only [applyPaidEvent, hv, if_true]
        cases i with
        | zero =>
            simp at h
            exact ⟨{ v with is_paid := b }, by simp [← h]⟩
        | succ j =>
            simp at h ⊢
            exact ⟨u, h, rfl, rfl, rfl⟩
      · simp only [applyPaidEvent, hv, Bool.false_eq_true, if_false]
        cases i with
        | zero =>
            simp at h ⊢
            exact ⟨h.symm ▸ rfl, h.symm ▸ rfl, h.symm ▸ rfl⟩
        | succ j =>
            simp only [List.getElem?_cons_succ] at h ⊢
            exact ih j h

theorem dispatchEvent_preserves_ref (db : List User) (ev : Event)
    (i : Nat) (u : User) (h : db[i]? = some u) :
    ∃ u', ((dispatchEvent db ev).1)[i]? = some u' ∧
      u'.id = u.id ∧ u'.email = u.email ∧
      u'.stripe_customer_id = u.stripe_customer_id := by
  unfold dispatchEvent
  by_cases h1 : ev.type == "checkout.session.completed"
  · simpa [h1] using applyPaidEvent_preserves_ref db ev.customer true i u h
  · by_cases h2 : ev.type == "invoice.payment_succeeded"
    · simpa [h1, h2] using applyPaidEvent_preserves_ref db ev.customer true i u h
    · by_cases h3 : ev.type == "customer.subscription.deleted"
      · simpa [h1, h2, h3] using
          applyPaidEvent_preserves_ref db ev.customer false i u h
      · exact ⟨u, by simpa [h1, h2, h3] using h, rfl, rfl, rfl⟩

end WebhookLemmas

/-- Claim C1: submitting the same verified event twice yields `success`
then `already_processed`; entitlement state reflects exactly one
application of the event's dispatch, the duplicate delivery mutating
nothing (the second delivery arriving within the marker's 24 h TTL). -/
theorem webhook_idempotent_once (ev : Event) (now now2 : Rat)
    (r : MockRedis) (db : List User)
    (hd : lookupKV ("stripe_event:" ++ ev.id) r.data = none)
    (he : lookupKV ("stripe_event:" ++ ev.id) r.expiry = none)
    (hle : now2 ≤ now + 86400) :
    let p := stripe_webhook (.ok ev) now r db
    let q := stripe_webhook (.ok ev) now2 p.1 p.2.1
    p.2.2.1 = .success ev.type ∧
    p.2.1 = (dispatchEvent db ev).1 ∧
    q.2.2.1 = .alreadyProcessed ∧
    q.2.1 = p.2.1 ∧ q.1 = p.1 := by
  intro p q
  have hp : p = (r.setex now ("stripe_event:" ++ ev.id) 86400 (RVal.str "1"),
      (dispatchEvent db ev).1, .success ev.type,
      Op.rGet ("stripe_event:" ++ ev.id) ::
        Op.rSetex ("stripe_event:" ++ ev.id) 86400 (RVal.str "1") ::
        (dispatchEvent db ev).2) := by
    show stripe_webhook (.ok ev) now r db = _
    simp only [stripe_webhook, MockRedis.get_no_expiry he, hd, optTruthy,
      Bool.false_eq_true, if_false]
  have he2 : lookupKV ("stripe_event:" ++ ev.id) p.1.expiry = some (now + 86400) := by
    rw [hp]
    exact MockRedis.setex_lookup_self.2
  have hd2 : lookupKV ("stripe_event:" ++ ev.id) p.1.data = some (RVal.str "1") := by
    rw [hp]
    exact MockRedis.setex_lookup_self.1
  have hq : q = (p.1, p.2.1, .alreadyProcessed,
      [Op.rGet ("stripe_event:" ++ ev.id)]) := by
    show stripe_webhook (.ok ev) now2 p.1 p.2.1 = _
    simp only [stripe_webhook, MockRedis.get_live he2 hle, hd2, optTruthy,
      RVal.truthy]
    rfl
  rw [hp, hq, hp]
  exact ⟨rfl, rfl, rfl, rfl, rfl⟩

/-- Claim C4: a webhook delivery failing verification is rejected with the
HTTP 400 detail and touches neither the store nor the user table — in
particular no idempotency marker is written — so a later correctly-signed
delivery of the same event identifier is still processed as `success`. -/
theorem webhook_rejection_writes_nothing (e : VerifyErr) (ev : Event)
    (now now2 : Rat) (r : MockRedis) (db : List User)
    (hd : lookupKV ("stripe_event:" ++ ev.id) r.data = none)
    (he : lookupKV ("stripe_event:" ++ ev.id) r.expiry = none) :
    stripe_webhook (.error e) now r db = (r, db, .rejected e.detail, []) ∧
    (stripe_webhook (.ok ev) now2 r db).2.2.1 = .success ev.type := by
  constructor
  · rfl
  · simp only [stripe_webhook, MockRedis.get_no_expiry he, hd, optTruthy,
      Bool.false_eq_true, if_false]

/-- Claim C5: in any webhook execution, every committed entitlement
mutation in the operation trace is preceded by the write of the
idempotency marker for the event's identifier (mark-then-act ordering);
mutations only ever occur in verified executions. -/
theorem webhook_marks_before_acting (verify : Except VerifyErr Event)
    (now : Rat) (r : MockRedis) (db : List User) (j uid : Nat) (b : Bool)
    (hj : ((stripe_webhook verify now r db).2.2.2)[j]? =
      some (Op.dbSetPaid uid b)) :
    ∃ ev, verify = .ok ev ∧ ∃ i, i < j ∧
      ((stripe_webhook verify now r db).2.2.2)[i]? =
        some (Op.rSetex ("stripe_event:" ++ ev.id) 86400 (RVal.str "1")) := by
  match verify with
  | .error e => simp [stripe_webhook] at hj
  | .ok ev =>
      refine ⟨ev, rfl, ?_⟩
      simp only [stripe_webhook] at hj ⊢
      by_cases hdup : optTruthy (r.get now ("stripe_event:" ++ ev.id)).2
      · rw [if_pos hdup] at hj
        match j with
        | 0 => simp at hj
        | k + 1 => simp at hj
      · rw [if_neg hdup] at hj ⊢
        match j with
        | 0 => simp at hj
        | 1 => simp at hj
        | k + 2 => exact ⟨1, by omega, by simp⟩

/-- Claim C3: for a verified, non-duplicate webhook event, the two payment
kinds set `is_paid := true` on the first account whose customer reference
matches the event, cancellation sets `is_paid := false` there, any other
kind leaves the table untouched, a missing match is a silent no-op — and in
every one of these cases the handler reports `success`. -/
theorem webhook_entitlement_transitions (ev : Event) (now : Rat)
    (r : MockRedis) (db : List User)
    (hd : lookupKV ("stripe_event:" ++ ev.id) r.data = none)
    (he : lookupKV ("stripe_event:" ++ ev.id) r.expiry = none) :
    let p := stripe_webhook (.ok ev) now r db
    p.2.2.1 = .success ev.type ∧
    ((ev.type = "checkout.session.completed" ∨
      ev.type = "invoice.payment_succeeded") →
      ∀ pre u post, db = pre ++ u :: post →
        (∀ v ∈ pre, v.stripe_customer_id ≠ ev.customer) →
        u.stripe_customer_id = ev.customer →
        p.2.1 = pre ++ { u with is_paid := true } :: post) ∧
    (ev.type = "customer.subscription.deleted" →
      ∀ pre u post, db = pre ++ u :: post →
        (∀ v ∈ pre, v.stripe_customer_id ≠ ev.customer) →
        u.stripe_customer_id = ev.customer →
        p.2.1 = pre ++ { u with is_paid := false } :: post) ∧
    (ev.type ≠ "checkout.session.completed" →
      ev.type ≠ "invoice.payment_succeeded" →
      ev.type ≠ "customer.subscription.deleted" → p.2.1 = db) ∧
    ((∀ u ∈ db, u.stripe_customer_id ≠ ev.customer) → p.2.1 = db) := by
  intro p
  have hp : p = (r.setex now ("stripe_event:" ++ ev.id) 86400 (RVal.str "1"),
      (dispatchEvent db ev).1, .success ev.type,
      Op.rGet ("stripe_event:" ++ ev.id) ::
        Op.rSetex ("stripe_event:" ++ ev.id) 86400 (RVal.str "1") ::
        (dispatchEvent db ev).2) := by
    show stripe_webhook (.ok ev) now r db = _
    simp only [stripe_webhook, MockRedis.get_no_expiry he, hd, optTruthy,
      Bool.false_eq_true, if_false]
  refine ⟨by rw [hp], ?_, ?_, ?_, ?_⟩
  · rintro (h1 | h1) pre u post hdb hpre hu
    · rw [hp]
      show (dispatchEvent db ev).1 = _
      rw [hdb]
      unfold dispatchEvent
      rw [h1, if_pos (by decide),
        applyPaidEvent_first pre u post ev.customer true hpre hu]
    · rw [hp]
      show (dispatchEvent db ev).1 = _
      rw [hdb]
      unfold dispatchEvent
      rw [h1, if_neg (by decide), if_pos (by decide),
        applyPaidEvent_first pre u post ev.customer true hpre hu]
  · intro h1 pre u post hdb hpre hu
    rw [hp]
    show (dispatchEvent db ev).1 = _
    rw [hdb]
    unfold dispatchEvent
    rw [h1, if_neg (by decide), if_neg (by decide), if_pos (by decide),
      applyPaidEvent_first pre u post ev.customer false hpre hu]
  · intro h1 h2 h3
    rw [hp]
    show (dispatchEvent db ev).1 = _
    unfold dispatchEvent
    rw [if_neg (by simpa using h1), if_neg (by simpa using h2),
      if_neg (by simpa using h3)]
  · intro hno
    rw [hp]
    show (dispatchEvent db ev).1 = _
    unfold dispatchEvent
    by_cases h1 : ev.type == "checkout.session.completed"
    · rw [if_pos h1, applyPaidEvent_nomatch db ev.customer true hno]
    · rw [if_neg h1]
      by_cases h2 : ev.type == "invoice.payment_succeeded"
      · rw [if_pos h2, applyPaidEvent_nomatch db ev.customer true hno]
      · rw [if_neg h2]
        by_cases h3 : ev.type == "customer.subscription.deleted"
        · rw [if_pos h3, applyPaidEvent_nomatch db ev.customer false hno]
        · rw [if_neg h3]

section CheckoutLemmas

theorem create_checkout_preserves (db : List User) (uid : Nat) (nc : String)
    (i : Nat) (u : User) (h : db[i]? = some u)
    (hset : custFalsy u.stripe_customer_id = false) :
    (create_checkout_session db uid nc)[i]? = some u := by
  induction db generalizing i with
  | nil => simp at h
  | cons v t ih =>
      by_cases hv : v.id == uid
      · cases i with
        | zero =>
            simp at h
            subst h
            simp [create_checkout_session, hv, hset]
        | succ j =>
            simp only [List.getElem?_cons_succ] at h
            unfold create_checkout_session
            rw [if_pos hv]
            by_cases hf : custFalsy v.stripe_customer_id
            · simpa [hf] using h
            · simpa [hf] using h
      · cases i with
        | zero =>
            simp at h
            subst h
            simp [create_checkout_session, hv]
        | succ j =>
            simp only [List.getElem?_cons_succ] at h
            unfold create_checkout_session
            rw [if_neg hv]
            simpa using ih j h

theorem create_checkout_sets (db : List User) (uid : Nat) (nc : String)
    (i : Nat) (u : User) (h : db[i]? = some u)
    (hid : u.id = uid) (hunset : custFalsy u.stripe_customer_id = true)
    (hfirst : ∀ j v, j < i → db[j]? = some v → v.id ≠ uid) :
    (create_checkout_session db uid nc)[i]? =
      some { u with stripe_customer_id := some nc } := by
  induction db generalizing i with
  | nil => simp at h
  | cons v t ih =>
      cases i with
      | zero =>
          simp at h
          subst h
          simp [create_checkout_session, hid, hunset]
      | succ j =>
          simp only [List.getElem?_cons_succ] at h
          have hv : v.id ≠ uid :=
            hfirst 0 v (Nat.succ_pos j) (by simp)
          unfold create_checkout_session
          rw [if_neg (by simpa using hv)]
          simp only [List.getElem?_cons_succ]
          exact ih j h (fun k w hk hw =>
            hfirst (k + 1) w (Nat.succ_lt_succ hk) (by simpa using hw))

end CheckoutLemmas

/-- Claim C8: a customer reference is assigned at most once — the checkout
flow writes a freshly created reference only into the first row with the
authenticated user's id when that row's reference is unset, a row with a
set reference is returned untouched by the checkout flow, and the webhook
handler never changes any row's reference. -/
theorem customer_ref_first_writer_wins (db : List User) (uid : Nat)
    (nc : String) (verify : Except VerifyErr Event) (now : Rat)
    (r : MockRedis) (i : Nat) (u : User) (h : db[i]? = some u) :
    (custFalsy u.stripe_customer_id = false →
      (create_checkout_session db uid nc)[i]? = some u) ∧
    (∃ u', ((stripe_webhook verify now r db).2.1)[i]? = some u' ∧
      u'.stripe_customer_id = u.stripe_customer_id) ∧
    (u.id = uid → custFalsy u.stripe_customer_id = true →
      (∀ j v, j < i → db[j]? = some v → v.id ≠ uid) →
      (create_checkout_session db uid nc)[i]? =
        some { u with stripe_customer_id := some nc }) := by
  refine ⟨fun hset => create_checkout_preserves db uid nc i u h hset, ?_,
    fun hid hunset hfirst => create_checkout_sets db uid nc i u h hid hunset hfirst⟩
  match verify with
  | .error e => exact ⟨u, by simpa [stripe_webhook] using h, rfl⟩
  | .ok ev =>
      simp only [stripe_webhook]
      by_cases hdup : optTruthy (r.get now ("stripe_event:" ++ ev.id)).2
      · rw [if_pos hdup]
        exact ⟨u, h, rfl⟩
      · rw [if_neg hdup]
        obtain ⟨u', h1, _, _, h4⟩ := dispatchEvent_preserves_ref db ev i u h
        exact ⟨u', h1, h4⟩

section RateLimitLemmas

variable {r : MockRedis} {now t w : Rat} {key : String} {L : Int}

theorem check_rate_limit_absent (hd : lookupKV key r.data = none)
    (he : lookupKV key r.expiry = none) :
    check_rate_limit r now key L w = (r.setex now key w (RVal.num 1), true) := by
  simp [check_rate_limit, MockRedis.get_no_expiry he, hd]

theorem check_rate_limit_under {c : Int}
    (hd : lookupKV key r.data = some (RVal.num c))
    (he : lookupKV key r.expiry = some t) (hle : now ≤ t) (hc : c < L) :
    check_rate_limit r now key L w =
      (⟨insertKV key (RVal.num (c + 1)) r.data, r.expiry⟩, true) := by
  simp [check_rate_limit, MockRedis.get_live he hle, hd, RVal.toInt, hc,
    MockRedis.incr_live he hle hd]

theorem check_rate_limit_deny {c : Int}
    (hd : lookupKV key r.data = some (RVal.num c))
    (he : lookupKV key r.expiry = some t) (hle : now ≤ t) (hc : ¬ c < L) :
    check_rate_limit r now key L w = (r, false) := by
  simp [check_rate_limit, MockRedis.get_live he hle, hd, RVal.toInt, hc]

theorem crlIter_saturate (n : Nat)
    (hd : lookupKV key r.data = some (RVal.num L))
    (he : lookupKV key r.expiry = some t) (hle : now ≤ t) :
    crlIter now key L w n r = (r, List.replicate n false) := by
  induction n with
  | zero => rfl
  | succ k ih =>
      simp only [crlIter, check_rate_limit_deny hd he hle (lt_irrefl L), ih,
        List.replicate_succ]

theorem crlIter_fill (n : Nat) :
    ∀ (c : Int) (r : MockRedis), 1 ≤ c → c + n = L → 0 ≤ w →
    lookupKV key r.data = some (RVal.num c) →
    lookupKV key r.expiry = some (now + w) →
    (crlIter now key L w n r).2 = List.replicate n true ∧
    lookupKV key (crlIter now key L w n r).1.data = some (RVal.num L) ∧
    lookupKV key (crlIter now key L w n r).1.expiry = some (now + w) := by
  induction n with
  | zero =>
      intro c r h1 h2 _ hd he
      have hcl : c = L := by omega
      subst hcl
      exact ⟨rfl, hd, he⟩
  | succ k ih =>
      intro c r h1 h2 hw hd he
      have hle : now ≤ now + w := by linarith
      have hc : c < L := by omega
      simp only [crlIter, check_rate_limit_under hd he hle hc]
      obtain ⟨ha, hb, hc2⟩ := ih (c + 1)
        ⟨insertKV key (RVal.num (c + 1)) r.data, r.expiry⟩
        (by omega) (by omega) hw lookup_insertKV_self he
      exact ⟨by rw [ha, List.replicate_succ], hb, hc2⟩

theorem crlIter_add (now : Rat) (key : String) (L : Int) (w : Rat)
    (m n : Nat) : ∀ r : MockRedis, crlIter now key L w (m + n) r =
      ((crlIter now key L w n (crlIter now key L w m r).1).1,
       (crlIter now key L w m r).2 ++
         (crlIter now key L w n (crlIter now key L w m r).1).2) := by
  induction m with
  | zero => intro r; simp [crlIter]
  | succ k ih =>
      intro r
      have h1 : k + 1 + n = (k + n) + 1 := by omega
      rw [h1]
      simp only [crlIter]
      rw [ih]
      simp

theorem crl_full_run (now : Rat) (key : String) (L' : Nat) (w : Rat)
    (hL : 0 < L') (hw : 0 ≤ w) (r0 : MockRedis)
    (hd : lookupKV key r0.data = none) (he : lookupKV key r0.expiry = none) :
    (crlIter now key (L' : Int) w (L' + 2) r0).2 =
      List.replicate L' true ++ [false, false] ∧
    lookupKV key (crlIter now key (L' : Int) w (L' + 2) r0).1.data =
      some (RVal.num (L' : Int)) := by
  obtain ⟨m, hm⟩ : ∃ m, L' = m + 1 := ⟨L' - 1, by omega⟩
  subst hm
  have hstep : crlIter now key ((m + 1 : Nat) : Int) w (m + 1 + 2) r0 =
      (let p := check_rate_limit r0 now key ((m + 1 : Nat) : Int) w
       let q := crlIter now key ((m + 1 : Nat) : Int) w (m + 2) p.1
       (q.1, p.2 :: q.2)) := rfl
  rw [hstep]
  simp only [check_rate_limit_absent hd he]
  set r1 := r0.setex now key w (RVal.num 1) with hr1
  have hd1 : lookupKV key r1.data = some (RVal.num 1) :=
    MockRedis.setex_lookup_self.1
  have he1 : lookupKV key r1.expiry = some (now + w) :=
    MockRedis.setex_lookup_self.2
  obtain ⟨hfa, hfb, hfc⟩ := @crlIter_fill now w key ((m + 1 : Nat) : Int)
    m 1 r1 (le_refl 1) (by push_cast; omega) hw hd1 he1
  rw [crlIter_add now key ((m + 1 : Nat) : Int) w m 2 r1]
  have hle : now ≤ now + w := by linarith
  rw [crlIter_saturate 2 hfb hfc hle]
  refine ⟨?_, ?_⟩
  · rw [hfa]
    simp [List.replicate_succ]
  · exact hfb

end RateLimitLemmas

section CacheLemmas

theorem rateKey_ne_cacheKey (u : User) (d1 d2 : String) :
    rateKey u d1 ≠ cacheKey d2 :=
  rate_key_ne_cache_key (toString u.id) d1 d2

theorem cacheKey_ne_rateKey (u : User) (d1 d2 : String) :
    cacheKey d1 ≠ rateKey u d2 :=
  (rateKey_ne_cacheKey u d2 d1).symm

theorem rateKey_day_ne (u : User) (d1 d2 : String) (h : d1 ≠ d2) :
    rateKey u d1 ≠ rateKey u d2 :=
  rate_key_day_ne (toString u.id) d1 d2 h

theorem cacheKey_day_ne (d1 d2 : String) (h : d1 ≠ d2) :
    cacheKey d1 ≠ cacheKey d2 :=
  cache_key_day_ne d1 d2 h

theorem cacheGetOrCompute_miss (r : MockRedis) (now : Rat) (today : String)
    (fresh : List Sig)
    (hd : lookupKV (cacheKey today) r.data = none)
    (he : lookupKV (cacheKey today) r.expiry = none) :
    cacheGetOrCompute r now today fresh =
      (r.setex now (cacheKey today) 300 (RVal.json fresh), fresh) := by
  simp [cacheGetOrCompute, MockRedis.get_no_expiry he, hd]

theorem cacheGetOrCompute_hit (r : MockRedis) (now : Rat) (today : String)
    (fresh b : List Sig) (t : Rat)
    (hd : lookupKV (cacheKey today) r.data = some (RVal.json b))
    (he : lookupKV (cacheKey today) r.expiry = some t) (hle : now ≤ t) :
    cacheGetOrCompute r now today fresh = (r, b) := by
  simp [cacheGetOrCompute, MockRedis.get_live he hle, hd, RVal.truthy]

theorem cacheGetOrCompute_frame (r : MockRedis) (now : Rat) (today : String)
    (fresh : List Sig) (k : String) (hk : k ≠ cacheKey today) :
    lookupKV k ((cacheGetOrCompute r now today fresh).1).data =
      lookupKV k r.data ∧
    lookupKV k ((cacheGetOrCompute r now today fresh).1).expiry =
      lookupKV k r.expiry := by
  simp only [cacheGetOrCompute]
  have hg := @MockRedis.get_frame r now (cacheKey today) k hk
  cases hgv : (r.get now (cacheKey today)).2 with
  | some v =>
      by_cases hv : v.truthy
      · simp only [hv, if_true]
        exact hg
      · simp only [hv, Bool.false_eq_true, if_false]
        have hs := @MockRedis.setex_frame ((r.get now (cacheKey today)).1)
          now 300 (cacheKey today) k (RVal.json fresh) hk
        exact ⟨by rw [hs.1, hg.1], by rw [hs.2, hg.2]⟩
  | none =>
      have hs := @MockRedis.setex_frame ((r.get now (cacheKey today)).1)
        now 300 (cacheKey today) k (RVal.json fresh) hk
      exact ⟨by rw [hs.1, hg.1], by rw [hs.2, hg.2]⟩

end CacheLemmas

section SignalsLemmas

theorem get_signals_paid (u : User) (today : String) (now : Rat)
    (fresh : List Sig) (r : MockRedis) (hu : u.is_paid = true) :
    get_signals u today now fresh r =
      ((cacheGetOrCompute r now today fresh).1,
       .ok ⟨(cacheGetOrCompute r now today fresh).2, none, true⟩) := by
  simp [get_signals, hu]

theorem get_signals_free_absent (u : User) (today : String) (now : Rat)
    (fresh : List Sig) (r : MockRedis) (hu : u.is_paid = false)
    (hd : lookupKV (rateKey u today) r.data = none)
    (he : lookupKV (rateKey u today) r.expiry = none) :
    get_signals u today now fresh r =
      ((cacheGetOrCompute (r.setex now (rateKey u today) 86400 (RVal.num 1))
          now today fresh).1,
       .ok ⟨(cacheGetOrCompute (r.setex now (rateKey u today) 86400 (RVal.num 1))
          now today fresh).2.take 3,
          some "3/day (upgrade for unlimited)", false⟩) := by
  simp [get_signals, hu, MockRedis.get_no_expiry he, hd, optTruthy]

theorem get_signals_free_under (u : User) (today : String) (now : Rat)
    (fresh : List Sig) (r : MockRedis) (c : Int) (t : Rat)
    (hu : u.is_paid = false)
    (hd : lookupKV (rateKey u today) r.data = some (RVal.num c))
    (he : lookupKV (rateKey u today) r.expiry = some t)
    (hle : now ≤ t) (hc : c < 3) :
    get_signals u today now fresh r =
      ((cacheGetOrCompute
          ⟨insertKV (rateKey u today) (RVal.num (c + 1)) r.data, r.expiry⟩
          now today fresh).1,
       .ok ⟨(cacheGetOrCompute
          ⟨insertKV (rateKey u today) (RVal.num (c + 1)) r.data, r.expiry⟩
          now today fresh).2.take 3,
          some "3/day (upgrade for unlimited)", false⟩) := by
  have hnc : ¬ (optTruthy (some (RVal.num c)) = true ∧
      3 ≤ optToInt (some (RVal.num c))) := by
    rintro ⟨-, h3⟩
    simp [optToInt, RVal.toInt] at h3
    omega
  simp only [get_signals, hu, Bool.false_eq_true, if_false,
    MockRedis.get_live he hle, hd]
  rw [if_neg hnc]
  simp [MockRedis.incr_live he hle hd, RVal.toInt]

theorem get_signals_free_deny (u : User) (today : String) (now : Rat)
    (fresh : List Sig) (r : MockRedis) (c : Int) (t : Rat)
    (hu : u.is_paid = false)
    (hd : lookupKV (rateKey u today) r.data = some (RVal.num c))
    (he : lookupKV (rateKey u today) r.expiry = some t)
    (hle : now ≤ t) (hc : 3 ≤ c) :
    get_signals u today now fresh r =
      (r, .error (.quotaExceeded
        "Daily limit exceeded. Upgrade to paid plan for unlimited signals.")) := by
  have hcond : optTruthy (some (RVal.num c)) = true ∧
      3 ≤ optToInt (some (RVal.num c)) := by
    constructor
    · simp [optTruthy, RVal.truthy]
      omega
    · simp [optToInt, RVal.toInt]
      omega
  simp only [get_signals, hu, Bool.false_eq_true, if_false,
    MockRedis.get_live he hle, hd]
  rw [if_pos hcond]

theorem get_signals_frame (u : User) (today : String) (now : Rat)
    (fresh : List Sig) (r : MockRedis) (k : String)
    (hk1 : k ≠ rateKey u today) (hk2 : k ≠ cacheKey today) :
    lookupKV k ((get_signals u today now fresh r).1).data =
      lookupKV k r.data ∧
    lookupKV k ((get_signals u today now fresh r).1).expiry =
      lookupKV k r.expiry := by
  simp only [get_signals]
  by_cases hp : u.is_paid
  · simp only [hp, if_true]
    exact cacheGetOrCompute_frame r now today fresh k hk2
  · simp only [hp, Bool.false_eq_true, if_false]
    have hgf := @MockRedis.get_frame r now (rateKey u today) k hk1
    by_cases hcond : optTruthy (r.get now (rateKey u today)).2 = true ∧
        3 ≤ optToInt (r.get now (rateKey u today)).2
    · rw [if_pos hcond]
      exact hgf
    · rw [if_neg hcond]
      cases hg2 : (r.get now (rateKey u today)).2 with
      | none =>
          simp only [hg2]
          have h1 := cacheGetOrCompute_frame
            (((r.get now (rateKey u today)).1).setex now (rateKey u today)
              86400 (RVal.num 1)) now today fresh k hk2
          have h2 := @MockRedis.setex_frame ((r.get now (rateKey u today)).1)
            now 86400 (rateKey u today) k (RVal.num 1) hk1
          exact ⟨by rw [h1.1, h2.1, hgf.1], by rw [h1.2, h2.2, hgf.2]⟩
      | some v =>
          simp only [hg2]
          have h1 := cacheGetOrCompute_frame
            ((((r.get now (rateKey u today)).1).incr now (rateKey u today)).1)
            now today fresh k hk2
          have h2 := @MockRedis.incr_frame ((r.get now (rateKey u today)).1)
            now (rateKey u today) k hk1
          exact ⟨by rw [h1.1, h2.1, hgf.1], by rw [h1.2, h2.2, hgf.2]⟩

theorem gsIter_deny_saturate (u : User) (today : String) (now : Rat)
    (freshF : Nat → List Sig) (n : Nat) (t : Rat) (hu : u.is_paid = false) :
    ∀ (k0 : Nat) (r : MockRedis),
    lookupKV (rateKey u today) r.data = some (RVal.num 3) →
    lookupKV (rateKey u today) r.expiry = some t → now ≤ t →
    gsIter u today now freshF k0 n r =
      (r, List.replicate n (.error (.quotaExceeded
        "Daily limit exceeded. Upgrade to paid plan for unlimited signals."))) := by
  induction n with
  | zero => intro k0 r _ _ _; rfl
  | succ m ih =>
      intro k0 r hd he hle
      simp only [gsIter,
        get_signals_free_deny u today now (freshF k0) r 3 t hu hd he hle
          (le_refl 3),
        ih (k0 + 1) r hd he hle, List.replicate_succ]

theorem gsIter_frame (u : User) (today : String) (now : Rat)
    (freshF : Nat → List Sig) (n : Nat) (k : String)
    (hk1 : k ≠ rateKey u today) (hk2 : k ≠ cacheKey today) :
    ∀ (k0 : Nat) (r : MockRedis),
    lookupKV k ((gsIter u today now freshF k0 n r).1).data =
      lookupKV k r.data ∧
    lookupKV k ((gsIter u today now freshF k0 n r).1).expiry =
      lookupKV k r.expiry := by
  induction n with
  | zero => intro k0 r; exact ⟨rfl, rfl⟩
  | succ m ih =>
      intro k0 r
      simp only [gsIter]
      have h1 := ih (k0 + 1) ((get_signals u today now (freshF k0) r).1)
      have h2 := get_signals_frame u today now (freshF k0) r k hk1 hk2
      exact ⟨by rw [h1.1, h2.1], by rw [h1.2, h2.2]⟩

theorem gs_free_run (u : User) (today : String) (now : Rat)
    (freshF : Nat → List Sig) (r0 : MockRedis) (n : Nat)
    (hu : u.is_paid = false)
    (hrd : lookupKV (rateKey u today) r0.data = none)
    (hre : lookupKV (rateKey u today) r0.expiry = none)
    (hcd : lookupKV (cacheKey today) r0.data = none)
    (hce : lookupKV (cacheKey today) r0.expiry = none) :
    (gsIter u today now freshF 0 (3 + n) r0).2 =
      List.replicate 3 (Except.ok
        (SignalsOk.mk ((freshF 0).take 3)
          (some "3/day (upgrade for unlimited)") false)) ++
      List.replicate n (Except.error (SignalsError.quotaExceeded
        "Daily limit exceeded. Upgrade to paid plan for unlimited signals.")) ∧
    lookupKV (rateKey u today)
      (gsIter u today now freshF 0 (3 + n) r0).1.data = some (RVal.num 3) ∧
    lookupKV (rateKey u today)
      (gsIter u today now freshF 0 (3 + n) r0).1.expiry = some (now + 86400) ∧
    lookupKV (cacheKey today)
      (gsIter u today now freshF 0 (3 + n) r0).1.data =
        some (RVal.json (freshF 0)) ∧
    lookupKV (cacheKey today)
      (gsIter u today now freshF 0 (3 + n) r0).1.expiry = some (now + 300) := by
  have hrc : rateKey u today ≠ cacheKey today := rateKey_ne_cacheKey u today today
  have hcr : cacheKey today ≠ rateKey u today := cacheKey_ne_rateKey u today today
  -- call 1: counter initialized, cache miss and fill
  set r1 := r0.setex now (rateKey u today) 86400 (RVal.num 1) with hr1def
  have hc1d : lookupKV (cacheKey today) r1.data = none := by
    rw [(MockRedis.setex_frame hcr).1]; exact hcd
  have hc1e : lookupKV (cacheKey today) r1.expiry = none := by
    rw [(MockRedis.setex_frame hcr).2]; exact hce
  have hstep1 : get_signals u today now (freshF 0) r0 =
      (r1.setex now (cacheKey today) 300 (RVal.json (freshF 0)),
       .ok ⟨(freshF 0).take 3, some "3/day (upgrade for unlimited)", false⟩) := by
    rw [get_signals_free_absent u today now (freshF 0) r0 hu hrd hre,
      cacheGetOrCompute_miss r1 now today (freshF 0) hc1d hc1e]
  set s1 := r1.setex now (cacheKey today) 300 (RVal.json (freshF 0)) with hs1def
  have hs1rd : lookupKV (rateKey u today) s1.data = some (RVal.num 1) := by
    rw [(MockRedis.setex_frame hrc).1]
    exact MockRedis.setex_lookup_self.1
  have hs1re : lookupKV (rateKey u today) s1.expiry = some (now + 86400) := by
    rw [(MockRedis.setex_frame hrc).2]
    exact MockRedis.setex_lookup_self.2
  have hs1cd : lookupKV (cacheKey today) s1.data =
      some (RVal.json (freshF 0)) := MockRedis.setex_lookup_self.1
  have hs1ce : lookupKV (cacheKey today) s1.expiry = some (now + 300) :=
    MockRedis.setex_lookup_self.2
  -- call 2: counter 1 → 2, cache hit
  set s2 : MockRedis :=
    ⟨insertKV (rateKey u today) (RVal.num 2) s1.data, s1.expiry⟩ with hs2def
  have hs2rd : lookupKV (rateKey u today) s2.data = some (RVal.num 2) :=
    lookup_insertKV_self
  have hs2re : lookupKV (rateKey u today) s2.expiry = some (now + 86400) :=
    hs1re
  have hs2cd : lookupKV (cacheKey today) s2.data =
      some (RVal.json (freshF 0)) := by
    rw [lookup_insertKV_ne hcr]; exact hs1cd
  have hs2ce : lookupKV (cacheKey today) s2.expiry = some (now + 300) := hs1ce
  have hle300 : now ≤ now + 300 := by linarith
  have hle86400 : now ≤ now + 86400 := by linarith
  have hstep2 : get_signals u today now (freshF 1) s1 =
      (s2, .ok ⟨(freshF 0).take 3, some "3/day (upgrade for unlimited)", false⟩) := by
    rw [get_signals_free_under u today now (freshF 1) s1 1 (now + 86400) hu
      hs1rd hs1re hle86400 (by norm_num)]
    rw [show (1 : Int) + 1 = 2 from rfl]
    rw [cacheGetOrCompute_hit s2 now today (freshF 1) (freshF 0) (now + 300)
      hs2cd hs2ce hle300]
  -- call 3: counter 2 → 3, cache hit
  set s3 : MockRedis :=
    ⟨insertKV (rateKey u today) (RVal.num 3) s2.data, s2.expiry⟩ with hs3def
  have hs3rd : lookupKV (rateKey u today) s3.data = some (RVal.num 3) :=
    lookup_insertKV_self
  have hs3re : lookupKV (rateKey u today) s3.expiry = some (now + 86400) :=
    hs2re
  have hs3cd : lookupKV (cacheKey today) s3.data =
      some (RVal.json (freshF 0)) := by
    rw [lookup_insertKV_ne hcr]; exact hs2cd
  have hs3ce : lookupKV (cacheKey today) s3.expiry = some (now + 300) := hs2ce
  have hstep3 : get_signals u today now (freshF 2) s2 =
      (s3, .ok ⟨(freshF 0).take 3, some "3/day (upgrade for unlimited)", false⟩) := by
    rw [get_signals_free_under u today now (freshF 2) s2 2 (now + 86400) hu
      hs2rd hs2re hle86400 (by norm_num)]
    rw [show (2 : Int) + 1 = 3 from rfl]
    rw [cacheGetOrCompute_hit s3 now today (freshF 2) (freshF 0) (now + 300)
      hs3cd hs3ce hle300]
  -- remaining n calls: all denied, state frozen at s3
  have hsat := gsIter_deny_saturate u today now freshF n (now + 86400) hu 3 s3
    hs3rd hs3re hle86400
  have hiter : gsIter u today now freshF 0 (3 + n) r0 =
      (s3, .ok ⟨(freshF 0).take 3, some "3/day (upgrade for unlimited)", false⟩ ::
        .ok ⟨(freshF 0).take 3, some "3/day (upgrade for unlimited)", false⟩ ::
        .ok ⟨(freshF 0).take 3, some "3/day (upgrade for unlimited)", false⟩ ::
        List.replicate n (.error (.quotaExceeded
          "Daily limit exceeded. Upgrade to paid plan for unlimited signals."))) := by
    have h3n : 3 + n = (n + 1 + 1) + 1 := by omega
    rw [h3n]
    simp only [gsIter]
    rw [hstep1]
    simp only []
    rw [hstep2]
    simp only []
    rw [hstep3]
    simp only []
    rw [hsat]
  rw [hiter]
  refine ⟨?_, hs3rd, hs3re, hs3cd, hs3ce⟩
  simp [List.replicate_succ]

end SignalsLemmas

/-- Claim C2: issuing up to the limit always succeeds, the next call in the
same window is denied, and denial never increments: after `limit + 2` calls
the stored counter equals `limit`.  This holds for the generic auth rate
limiter (any positive limit and window, hence for 10 per 60 s) and for the
free-tier signal quota of 3 per day. -/
theorem rate_limit_denial_consumes_nothing
    (now : Rat) (key : String) (L' : Nat) (w : Rat)
    (hL : 0 < L') (hw : 0 ≤ w) (ra : MockRedis)
    (had : lookupKV key ra.data = none) (hae : lookupKV key ra.expiry = none)
    (u : User) (today : String) (freshF : Nat → List Sig) (rs : MockRedis)
    (hu : u.is_paid = false)
    (hrd : lookupKV (rateKey u today) rs.data = none)
    (hre : lookupKV (rateKey u today) rs.expiry = none)
    (hcd : lookupKV (cacheKey today) rs.data = none)
    (hce : lookupKV (cacheKey today) rs.expiry = none) :
    ((crlIter now key (L' : Int) w (L' + 2) ra).2 =
        List.replicate L' true ++ [false, false] ∧
      lookupKV key (crlIter now key (L' : Int) w (L' + 2) ra).1.data =
        some (RVal.num (L' : Int))) ∧
    ((gsIter u today now freshF 0 5 rs).2 =
        List.replicate 3 (Except.ok
          (SignalsOk.mk ((freshF 0).take 3)
            (some "3/day (upgrade for unlimited)") false)) ++
        List.replicate 2 (Except.error (SignalsError.quotaExceeded
          "Daily limit exceeded. Upgrade to paid plan for unlimited signals.")) ∧
      lookupKV (rateKey u today)
        (gsIter u today now freshF 0 5 rs).1.data = some (RVal.num 3)) := by
  refine ⟨crl_full_run now key L' w hL hw ra had hae, ?_⟩
  have h := gs_free_run u today now freshF rs 2 hu hrd hre hcd hce
  exact ⟨h.1, h.2.1⟩

/-- Claim C9: a quota counter equals the number of allowed increments in
its window; an expired key reads as absent; a free account that used its
3 daily requests is denied on the 4th, and its first request under the next
day's window id succeeds again with a fresh count of 1 (and full 3-entry
truncated payload with the limit hint set). -/
theorem quota_counter_window_invariant (u : User) (d1 d2 : String)
    (now now2 : Rat) (freshF freshG : Nat → List Sig) (r0 : MockRedis)
    (hu : u.is_paid = false) (hdays : d1 ≠ d2)
    (hlen : 3 ≤ (freshF 0).length)
    (h1 : lookupKV (rateKey u d1) r0.data = none)
    (h2 : lookupKV (rateKey u d1) r0.expiry = none)
    (h3 : lookupKV (cacheKey d1) r0.data = none)
    (h4 : lookupKV (cacheKey d1) r0.expiry = none)
    (h5 : lookupKV (rateKey u d2) r0.data = none)
    (h6 : lookupKV (rateKey u d2) r0.expiry = none)
    (h7 : lookupKV (cacheKey d2) r0.data = none)
    (h8 : lookupKV (cacheKey d2) r0.expiry = none) :
    (∀ (rx : MockRedis) (kx : String) (tx nx : Rat),
      lookupKV kx rx.expiry = some tx → nx > tx → (rx.get nx kx).2 = none) ∧
    (gsIter u d1 now freshF 0 4 r0).2 =
      List.replicate 3 (Except.ok
        (SignalsOk.mk ((freshF 0).take 3)
          (some "3/day (upgrade for unlimited)") false)) ++
      [Except.error (SignalsError.quotaExceeded
        "Daily limit exceeded. Upgrade to paid plan for unlimited signals.")] ∧
    ((freshF 0).take 3).length = 3 ∧
    lookupKV (rateKey u d1)
      (gsIter u d1 now freshF 0 4 r0).1.data = some (RVal.num 3) ∧
    (get_signals u d2 now2 (freshG 0) (gsIter u d1 now freshF 0 4 r0).1).2 =
      Except.ok (SignalsOk.mk ((freshG 0).take 3)
        (some "3/day (upgrade for unlimited)") false) ∧
    lookupKV (rateKey u d2)
      ((get_signals u d2 now2 (freshG 0)
        (gsIter u d1 now freshF 0 4 r0).1).1).data = some (RVal.num 1) := by
  have hrun := gs_free_run u d1 now freshF r0 1 hu h1 h2 h3 h4
  refine ⟨?_, ?_, ?_, hrun.2.1, ?_⟩
  · intro rx kx tx nx hx hgt
    rw [MockRedis.get_expired hx hgt]
  · rw [hrun.1]
    simp
  · simp [List.length_take]
    omega
  · -- next-day call: the day-2 keys are untouched by the day-1 calls
    have hf1 := gsIter_frame u d1 now freshF 4 (rateKey u d2)
      (rateKey_day_ne u d2 d1 (Ne.symm hdays))
      (rateKey_ne_cacheKey u d2 d1) 0 r0
    have hf2 := gsIter_frame u d1 now freshF 4 (cacheKey d2)
      (cacheKey_ne_rateKey u d2 d1)
      (cacheKey_day_ne d2 d1 (Ne.symm hdays)) 0 r0
    set S1 := (gsIter u d1 now freshF 0 4 r0).1 with hS1def
    have hS1rd : lookupKV (rateKey u d2) S1.data = none := by
      rw [hf1.1]; exact h5
    have hS1re : lookupKV (rateKey u d2) S1.expiry = none := by
      rw [hf1.2]; exact h6
    have hS1cd : lookupKV (cacheKey d2) S1.data = none := by
      rw [hf2.1]; exact h7
    have hS1ce : lookupKV (cacheKey d2) S1.expiry = none := by
      rw [hf2.2]; exact h8
    have hrc : rateKey u d2 ≠ cacheKey d2 := rateKey_ne_cacheKey u d2 d2
    have hcr : cacheKey d2 ≠ rateKey u d2 := cacheKey_ne_rateKey u d2 d2
    set S2 := S1.setex now2 (rateKey u d2) 86400 (RVal.num 1) with hS2def
    have hS2cd : lookupKV (cacheKey d2) S2.data = none := by
      rw [(MockRedis.setex_frame hcr).1]; exact hS1cd
    have hS2ce : lookupKV (cacheKey d2) S2.expiry = none := by
      rw [(MockRedis.setex_frame hcr).2]; exact hS1ce
    have hstep : get_signals u d2 now2 (freshG 0) S1 =
        (S2.setex now2 (cacheKey d2) 300 (RVal.json (freshG 0)),
         .ok ⟨(freshG 0).take 3, some "3/day (upgrade for unlimited)", false⟩) := by
      rw [get_signals_free_absent u d2 now2 (freshG 0) S1 hu hS1rd hS1re,
        cacheGetOrCompute_miss S2 now2 d2 (freshG 0) hS2cd hS2ce]
    rw [hstep]
    refine ⟨rfl, ?_⟩
    rw [(MockRedis.setex_frame hrc).1]
    exact MockRedis.setex_lookup_self.1

/-- Claim C6: the cache always stores the full generated batch — on a miss
the whole fresh batch is written even when the requester is free-tier, the
free response being its first 3 entries; on a hit the same cached batch
serves a free request (first 3 entries) and a paid request (entire batch),
and neither request alters the cached entry. -/
theorem cache_stores_full_batch (u up : User) (today : String) (now : Rat)
    (fresh fresh2 fresh3 : List Sig) (r rc : MockRedis) (b : List Sig)
    (t : Rat) (hu : u.is_paid = false) (hup : up.is_paid = true)
    (hrd : lookupKV (rateKey u today) r.data = none)
    (hre : lookupKV (rateKey u today) r.expiry = none)
    (hcd : lookupKV (cacheKey today) r.data = none)
    (hce : lookupKV (cacheKey today) r.expiry = none)
    (hbd : lookupKV (cacheKey today) rc.data = some (RVal.json b))
    (hbe : lookupKV (cacheKey today) rc.expiry = some t) (hle : now ≤ t)
    (hrd2 : lookupKV (rateKey u today) rc.data = none)
    (hre2 : lookupKV (rateKey u today) rc.expiry = none) :
    (lookupKV (cacheKey today) ((get_signals u today now fresh r).1).data =
        some (RVal.json fresh) ∧
      (get_signals u today now fresh r).2 = Except.ok
        (SignalsOk.mk (fresh.take 3)
          (some "3/day (upgrade for unlimited)") false)) ∧
    ((get_signals u today now fresh2 rc).2 = Except.ok
        (SignalsOk.mk (b.take 3) (some "3/day (upgrade for unlimited)") false) ∧
      (get_signals up today now fresh3 rc).2 = Except.ok
        (SignalsOk.mk b none true) ∧
      lookupKV (cacheKey today) ((get_signals u today now fresh2 rc).1).data =
        some (RVal.json b)) := by
  have hrc : rateKey u today ≠ cacheKey today := rateKey_ne_cacheKey u today today
  have hcr : cacheKey today ≠ rateKey u today := cacheKey_ne_rateKey u today today
  constructor
  · -- miss path stores the untruncated batch
    set r1 := r.setex now (rateKey u today) 86400 (RVal.num 1) with hr1def
    have hc1d : lookupKV (cacheKey today) r1.data = none := by
      rw [(MockRedis.setex_frame hcr).1]; exact hcd
    have hc1e : lookupKV (cacheKey today) r1.expiry = none := by
      rw [(MockRedis.setex_frame hcr).2]; exact hce
    have hstep : get_signals u today now fresh r =
        (r1.setex now (cacheKey today) 300 (RVal.json fresh),
         .ok ⟨fresh.take 3, some "3/day (upgrade for unlimited)", false⟩) := by
      rw [get_signals_free_absent u today now fresh r hu hrd hre,
        cacheGetOrCompute_miss r1 now today fresh hc1d hc1e]
    rw [hstep]
    exact ⟨MockRedis.setex_lookup_self.1, rfl⟩
  · -- hit path: one and the same stored batch serves both tiers
    set r2 := rc.setex now (rateKey u today) 86400 (RVal.num 1) with hr2def
    have hc2d : lookupKV (cacheKey today) r2.data = some (RVal.json b) := by
      rw [(MockRedis.setex_frame hcr).1]; exact hbd
    have hc2e : lookupKV (cacheKey today) r2.expiry = some t := by
      rw [(MockRedis.setex_frame hcr).2]; exact hbe
    have hfree : get_signals u today now fresh2 rc =
        (r2, .ok ⟨b.take 3, some "3/day (upgrade for unlimited)", false⟩) := by
      rw [get_signals_free_absent u today now fresh2 rc hu hrd2 hre2,
        cacheGetOrCompute_hit r2 now today fresh2 b t hc2d hc2e hle]
    have hpaid : get_signals up today now fresh3 rc = (rc, .ok ⟨b, none, true⟩) := by
      rw [get_signals_paid up today now fresh3 rc hup,
        cacheGetOrCompute_hit rc now today fresh3 b t hbd hbe hle]
    rw [hfree, hpaid]
    exact ⟨rfl, rfl, hc2d⟩

/-- Claim C7: once a batch is computed and cached for a day key, any later
lookup of the same day key at or before the 5-minute TTL returns the very
payload that was stored, with no recomputation: the store is unchanged and
the result does not depend on the would-be fresh batch. -/
theorem cache_hit_byte_identical (r : MockRedis) (now now2 : Rat)
    (today : String) (fresh fresh2 : List Sig)
    (hcd : lookupKV (cacheKey today) r.data = none)
    (hce : lookupKV (cacheKey today) r.expiry = none)
    (hle : now2 ≤ now + 300) :
    (cacheGetOrCompute r now today fresh).2 = fresh ∧
    cacheGetOrCompute (cacheGetOrCompute r now today fresh).1 now2 today
        fresh2 =
      ((cacheGetOrCompute r now today fresh).1,
       (cacheGetOrCompute r now today fresh).2) := by
  rw [cacheGetOrCompute_miss r now today fresh hcd hce]
  refine ⟨rfl, ?_⟩
  exact cacheGetOrCompute_hit _ now2 today fresh2 fresh (now + 300)
    MockRedis.setex_lookup_self.1 MockRedis.setex_lookup_self.2 hle

/-- Claim C10: the generator always returns exactly 10 signals — 5 for
NIFTY and 5 for BANKNIFTY — every signal's type is one of BUY/SELL/HOLD,
every confidence lies in [0.6, 0.95] provided the uniform draws respect
their bounds, and truncation to the first 3 entries always yields exactly
3 signals. -/
theorem generator_shape_and_bounds (rng : Rng) (nowIso : String)
    (hU : ∀ (n : Nat) (a b : Rat), a ≤ b →
      a ≤ rng.unif n a b ∧ rng.unif n a b ≤ b) :
    (generate_mock_signals rng nowIso).length = 10 ∧
    ((generate_mock_signals rng nowIso).filter
      (fun s => s.symbol == "NIFTY")).length = 5 ∧
    ((generate_mock_signals rng nowIso).filter
      (fun s => s.symbol == "BANKNIFTY")).length = 5 ∧
    (∀ s ∈ generate_mock_signals rng nowIso, s.type ∈ signal_types ∧
      (0.6 : Rat) ≤ s.confidence ∧ s.confidence ≤ (0.95 : Rat)) ∧
    ((generate_mock_signals rng nowIso).take 3).length = 3 := by
  refine ⟨rfl, rfl, rfl, ?_, rfl⟩
  intro s hs
  rw [generate_mock_signals] at hs
  simp only [List.mem_flatMap, List.mem_map, List.mem_range] at hs
  obtain ⟨p, hp, i, hi, rfl⟩ := hs
  refine ⟨List.get_mem signal_types _ _, ?_, ?_⟩
  · have hab : (0.6 : Rat) ≤ 0.95 := by norm_num
    have h := hU (2 * (p.1 * 5 + i) + 1) 0.6 0.95 hab
    have e60 : ((60 : Int) : Rat) / 100 = (0.6 : Rat) := by norm_num
    have e95 : ((95 : Int) : Rat) / 100 = (0.95 : Rat) := by norm_num
    have hm := round2_mem (rng.unif (2 * (p.1 * 5 + i) + 1) 0.6 0.95) 60 95
      (by rw [e60]; exact h.1) (by rw [e95]; exact h.2)
    rw [e60] at hm
    exact hm.1
  · have hab : (0.6 : Rat) ≤ 0.95 := by norm_num
    have h := hU (2 * (p.1 * 5 + i) + 1) 0.6 0.95 hab
    have e60 : ((60 : Int) : Rat) / 100 = (0.6 : Rat) := by norm_num
    have e95 : ((95 : Int) : Rat) / 100 = (0.95 : Rat) := by norm_num
    have hm := round2_mem (rng.unif (2 * (p.1 * 5 + i) + 1) 0.6 0.95) 60 95
      (by rw [e60]; exact h.1) (by rw [e95]; exact h.2)
    rw [e95] at hm
    exact hm.2

/-- Witness for C1 at a concrete event, store and user table. -/
theorem webhook_idempotent_once_witness :
    (stripe_webhook
      (Except.ok (Event.mk "evt_1" "checkout.session.completed" (some "cus_1"))) 1
      (stripe_webhook
        (Except.ok (Event.mk "evt_1" "checkout.session.completed" (some "cus_1"))) 0
        (MockRedis.mk [] []) [User.mk 7 "a@b.c" false (some "cus_1")]).1
      (stripe_webhook
        (Except.ok (Event.mk "evt_1" "checkout.session.completed" (some "cus_1"))) 0
        (MockRedis.mk [] []) [User.mk 7 "a@b.c" false (some "cus_1")]).2.1).2.2.1 =
      WebhookResult.alreadyProcessed := by
  have h := webhook_idempotent_once
    (Event.mk "evt_1" "checkout.session.completed" (some "cus_1")) 0 1
    (MockRedis.mk [] []) [User.mk 7 "a@b.c" false (some "cus_1")] rfl rfl
    (by norm_num)
  obtain ⟨-, -, h3, -, -⟩ := h
  exact h3

/-- Witness for C2 at limit 10 / window 60 and at the signals quota. -/
theorem rate_limit_denial_consumes_nothing_witness :
    (crlIter 0 "k" ((10 : Nat) : Int) 60 (10 + 2) (MockRedis.mk [] [])).2 =
      List.replicate 10 true ++ [false, false] ∧
    lookupKV "k"
      (crlIter 0 "k" ((10 : Nat) : Int) 60 (10 + 2) (MockRedis.mk [] [])).1.data =
      some (RVal.num ((10 : Nat) : Int)) ∧
    lookupKV (rateKey (User.mk 1 "a@b.c" false none) "d")
      (gsIter (User.mk 1 "a@b.c" false none) "d" 0 (fun _ => []) 0 5
        (MockRedis.mk [] [])).1.data = some (RVal.num 3) := by
  have h := rate_limit_denial_consumes_nothing 0 "k" 10 60 (by norm_num)
    (by norm_num) (MockRedis.mk [] []) rfl rfl
    (User.mk 1 "a@b.c" false none) "d" (fun _ => []) (MockRedis.mk [] [])
    rfl rfl rfl rfl rfl
  exact ⟨h.1.1, h.1.2, h.2.2⟩

/-- Witness for C3: a checkout-completed event flips the matching account
to paid. -/
theorem webhook_entitlement_transitions_witness :
    (stripe_webhook
      (Except.ok (Event.mk "evt_2" "checkout.session.completed" (some "cus_9"))) 0
      (MockRedis.mk [] []) [User.mk 3 "c@d.e" false (some "cus_9")]).2.1 =
      [User.mk 3 "c@d.e" true (some "cus_9")] := by
  have h := webhook_entitlement_transitions
    (Event.mk "evt_2" "checkout.session.completed" (some "cus_9")) 0
    (MockRedis.mk [] []) [User.mk 3 "c@d.e" false (some "cus_9")] rfl rfl
  exact h.2.1 (Or.inl rfl) [] (User.mk 3 "c@d.e" false (some "cus_9")) [] rfl
    (by simp) rfl

/-- Witness for C4 at a concrete rejected delivery and its later retry. -/
theorem webhook_rejection_writes_nothing_witness :
    stripe_webhook (Except.error VerifyErr.invalidSignature) 0
      (MockRedis.mk [] []) [User.mk 3 "c@d.e" false (some "cus_9")] =
      (MockRedis.mk [] [], [User.mk 3 "c@d.e" false (some "cus_9")],
        WebhookResult.rejected "Invalid signature", []) ∧
    (stripe_webhook (Except.ok (Event.mk "evt_3" "customer.updated" none)) 5
      (MockRedis.mk [] []) [User.mk 3 "c@d.e" false (some "cus_9")]).2.2.1 =
      WebhookResult.success "customer.updated" :=
  webhook_rejection_writes_nothing VerifyErr.invalidSignature
    (Event.mk "evt_3" "customer.updated" none) 0 5 (MockRedis.mk [] [])
    [User.mk 3 "c@d.e" false (some "cus_9")] rfl rfl

/-- Witness for C5 on an execution whose trace commits a mutation at
index 2. -/
theorem webhook_marks_before_acting_witness :
    ∃ ev, (Except.ok (Event.mk "evt_4" "checkout.session.completed"
        (some "cus_1")) : Except VerifyErr Event) = Except.ok ev ∧
      ∃ i, i < 2 ∧
        ((stripe_webhook
          (Except.ok (Event.mk "evt_4" "checkout.session.completed" (some "cus_1")))
          0 (MockRedis.mk [] []) [User.mk 7 "a@b.c" false (some "cus_1")]).2.2.2)[i]? =
          some (Op.rSetex ("stripe_event:" ++ ev.id) 86400 (RVal.str "1")) :=
  webhook_marks_before_acting
    (Except.ok (Event.mk "evt_4" "checkout.session.completed" (some "cus_1")))
    0 (MockRedis.mk [] []) [User.mk 7 "a@b.c" false (some "cus_1")] 2 7 true
    (by decide)

/-- Witness for C6: a free miss stores the full 4-entry batch, and a paid
hit on a preloaded entry returns it whole. -/
theorem cache_stores_full_batch_witness :
    lookupKV (cacheKey "d")
      ((get_signals (User.mk 1 "a@b.c" false none) "d" 0
        [Sig.mk "NIFTY" "BUY" 21500 (7 / 10) "t",
         Sig.mk "NIFTY" "SELL" 21600 (7 / 10) "t",
         Sig.mk "NIFTY" "HOLD" 21700 (7 / 10) "t",
         Sig.mk "BANKNIFTY" "BUY" 45000 (7 / 10) "t"]
        (MockRedis.mk [] [])).1).data =
      some (RVal.json
        [Sig.mk "NIFTY" "BUY" 21500 (7 / 10) "t",
         Sig.mk "NIFTY" "SELL" 21600 (7 / 10) "t",
         Sig.mk "NIFTY" "HOLD" 21700 (7 / 10) "t",
         Sig.mk "BANKNIFTY" "BUY" 45000 (7 / 10) "t"]) ∧
    (get_signals (User.mk 2 "p@b.c" true none) "d" 0 []
      (MockRedis.mk
        [(cacheKey "d", RVal.json [Sig.mk "NIFTY" "BUY" 21500 (7 / 10) "t"])]
        [(cacheKey "d", 100)])).2 =
      Except.ok (SignalsOk.mk [Sig.mk "NIFTY" "BUY" 21500 (7 / 10) "t"]
        none true) := by
  have h := cache_stores_full_batch (User.mk 1 "a@b.c" false none)
    (User.mk 2 "p@b.c" true none) "d" 0
    [Sig.mk "NIFTY" "BUY" 21500 (7 / 10) "t",
     Sig.mk "NIFTY" "SELL" 21600 (7 / 10) "t",
     Sig.mk "NIFTY" "HOLD" 21700 (7 / 10) "t",
     Sig.mk "BANKNIFTY" "BUY" 45000 (7 / 10) "t"] [] []
    (MockRedis.mk [] [])
    (MockRedis.mk
      [(cacheKey "d", RVal.json [Sig.mk "NIFTY" "BUY" 21500 (7 / 10) "t"])]
      [(cacheKey "d", 100)])
    [Sig.mk "NIFTY" "BUY" 21500 (7 / 10) "t"] 100
    rfl rfl rfl rfl rfl rfl rfl rfl (by norm_num) rfl rfl
  exact ⟨h.1.1, h.2.2.1⟩

/-- Witness for C7 at a concrete store, batch and in-TTL second lookup. -/
theorem cache_hit_byte_identical_witness :
    (cacheGetOrCompute (MockRedis.mk [] []) 0 "d"
      [Sig.mk "NIFTY" "BUY" 21500 (7 / 10) "t"]).2 =
      [Sig.mk "NIFTY" "BUY" 21500 (7 / 10) "t"] ∧
    cacheGetOrCompute
      (cacheGetOrCompute (MockRedis.mk [] []) 0 "d"
        [Sig.mk "NIFTY" "BUY" 21500 (7 / 10) "t"]).1 299 "d" [] =
      ((cacheGetOrCompute (MockRedis.mk [] []) 0 "d"
        [Sig.mk "NIFTY" "BUY" 21500 (7 / 10) "t"]).1,
       (cacheGetOrCompute (MockRedis.mk [] []) 0 "d"
        [Sig.mk "NIFTY" "BUY" 21500 (7 / 10) "t"]).2) :=
  cache_hit_byte_identical (MockRedis.mk [] []) 0 299 "d"
    [Sig.mk "NIFTY" "BUY" 21500 (7 / 10) "t"] [] rfl rfl (by norm_num)

/-- Witness for C8: a set reference survives checkout untouched. -/
theorem customer_ref_first_writer_wins_witness :
    (create_checkout_session [User.mk 1 "a@b.c" false (some "cus_old")] 1
      "cus_new")[0]? = some (User.mk 1 "a@b.c" false (some "cus_old")) := by
  have h := customer_ref_first_writer_wins
    [User.mk 1 "a@b.c" false (some "cus_old")] 1 "cus_new"
    (Except.error VerifyErr.invalidPayload) 0 (MockRedis.mk [] []) 0
    (User.mk 1 "a@b.c" false (some "cus_old")) rfl
  exact h.1 (by decide)

/-- Witness for C9: exhaustion on day d1 then a fresh count of 1 on d2. -/
theorem quota_counter_window_invariant_witness :
    (gsIter (User.mk 1 "a@b.c" false none) "d1" 0
      (fun _ => [Sig.mk "NIFTY" "BUY" 21500 (7 / 10) "t",
        Sig.mk "NIFTY" "SELL" 21600 (7 / 10) "t",
        Sig.mk "NIFTY" "HOLD" 21700 (7 / 10) "t"]) 0 4 (MockRedis.mk [] [])).2 =
      List.replicate 3 (Except.ok
        (SignalsOk.mk [Sig.mk "NIFTY" "BUY" 21500 (7 / 10) "t",
          Sig.mk "NIFTY" "SELL" 21600 (7 / 10) "t",
          Sig.mk "NIFTY" "HOLD" 21700 (7 / 10) "t"]
          (some "3/day (upgrade for unlimited)") false)) ++
      [Except.error (SignalsError.quotaExceeded
        "Daily limit exceeded. Upgrade to paid plan for unlimited signals.")] ∧
    lookupKV (rateKey (User.mk 1 "a@b.c" false none) "d2")
      ((get_signals (User.mk 1 "a@b.c" false none) "d2" 50 []
        (gsIter (User.mk 1 "a@b.c" false none) "d1" 0
          (fun _ => [Sig.mk "NIFTY" "BUY" 21500 (7 / 10) "t",
            Sig.mk "NIFTY" "SELL" 21600 (7 / 10) "t",
            Sig.mk "NIFTY" "HOLD" 21700 (7 / 10) "t"]) 0 4
          (MockRedis.mk [] [])).1).1).data = some (RVal.num 1) := by
  have h := quota_counter_window_invariant (User.mk 1 "a@b.c" false none)
    "d1" "d2" 0 50
    (fun _ => [Sig.mk "NIFTY" "BUY" 21500 (7 / 10) "t",
      Sig.mk "NIFTY" "SELL" 21600 (7 / 10) "t",
      Sig.mk "NIFTY" "HOLD" 21700 (7 / 10) "t"]) (fun _ => [])
    (MockRedis.mk [] []) rfl (by decide) (by norm_num)
    rfl rfl rfl rfl rfl rfl rfl rfl
  obtain ⟨-, hres, -, -, -, hc1⟩ := h
  exact ⟨hres, hc1⟩

/-- Witness for C10 with the degenerate lower-endpoint draw stream. -/
theorem generator_shape_and_bounds_witness :
    (generate_mock_signals
      (Rng.mk (fun _ => (0 : Fin 3)) (fun _ a _ => a)) "t").length = 10 ∧
    ((generate_mock_signals
      (Rng.mk (fun _ => (0 : Fin 3)) (fun _ a _ => a)) "t").filter
      (fun s => s.symbol == "NIFTY")).length = 5 ∧
    ((generate_mock_signals
      (Rng.mk (fun _ => (0 : Fin 3)) (fun _ a _ => a)) "t").take 3).length = 3 := by
  have h := generator_shape_and_bounds
    (Rng.mk (fun _ => (0 : Fin 3)) (fun _ a _ => a)) "t"
    (fun n a b hab => ⟨le_refl a, hab⟩)
  exact ⟨h.1, h.2.1, h.2.2.2.2⟩

end StockSignals
